import Mathlib

/-!
Verification development for the AnZaiBot repository.

The definitions below are shallow embeddings of the Python source:
  * `AnZai.QQBot.*`    embeds `src/bot/qqbot.py` (group reply throttling and
    the group message buffering/debounce logic);
  * `AnZai.Sched.*`    embeds `src/services/scheduler.py` (heartbeat watchdog
    and the deferred `#BingMe` / `#BingMsg` / `#BingNote` job store);
  * `AnZai.AnLoop.*`   embeds `src/core/anloop_interpreter.py` together with
    the dispatch contract of `src/services/tool_executor.py`.

Times are modelled as integers (`Int`), Python dictionaries keyed by strings
as total functions `String → α` with pointwise update (`updFun`), and the
APScheduler job store as an association list with replace-or-append insertion
(`replace_existing=True` is always set by the source).  Python functions that
cannot raise (every modelled function either has a `try`/`except` around its
body or performs no raising operation on the modelled path) are total Lean
functions.
-/

namespace AnZai

/-- Pointwise update of a string-keyed dictionary modelled as a total
function, mirroring `d[k] = v` on a Python `dict` read through
`d.get(k, default)`. -/
def updFun {α : Type} (f : String → α) (k : String) (v : α) : String → α :=
  fun x => if x = k then v else f x

namespace QQBot

/-- `QQBot.GROUP_REPLY_COOLDOWN = 20` (seconds), from `qqbot.py`. -/
def GROUP_REPLY_COOLDOWN : Int := 20

/-- `QQBot.GROUP_MESSAGE_BUFFER_THRESHOLD_FIXED = 5`, from `qqbot.py`. -/
def THRESHOLD_FIXED : Nat := 5

/-- `QQBot.GROUP_MESSAGE_BUFFER_THRESHOLD_RANDOM = 5`, from `qqbot.py`. -/
def THRESHOLD_RANDOM : Nat := 5

/-- The fixed error message sent by `send_message` when summarizing the
accumulated replies raises: `"抱歉，我尝试总结群聊回复时遇到了一些问题。"`. -/
def SUMMARY_FAIL_MSG : String := "抱歉，我尝试总结群聊回复时遇到了一些问题。"

/-- `"\n".join(all_buffered_replies)` from `send_message`. -/
def joinNewline (l : List String) : String := String.intercalate "\n" l

/-- The reply-throttling state of `QQBot`:
`last_group_reply_time` (read through `.get(group_id, 0.0)`, hence a total
function defaulting to `0`) and `group_reply_buffers` (read through
membership checks, hence a total function defaulting to `[]`). -/
structure ReplyState where
  lastGroupReplyTime : String → Int
  groupReplyBuffers : String → List String

/-- Embedding of the group branch of `QQBot.send_message` (`qqbot.py`).
`summarize` is the external summarization capability
(`ai_inference_layer._call_gemini_api` on the summary prompt); `none` models
the call raising, which the source catches.  Returns the new state together
with the list of outbound messages actually transmitted (empty when the
attempt only buffers).  The group branch never splits messages, so the
outbound list has at most one element. -/
def sendGroupMessage (summarize : String → Option String) (st : ReplyState)
    (gid content : String) (now : Int) : ReplyState × List String :=
  let last := st.lastGroupReplyTime gid
  if now - last < GROUP_REPLY_COOLDOWN then
    -- cooldown: append to group_reply_buffers[gid] and return (no send,
    -- last_group_reply_time not touched)
    ({ st with
        groupReplyBuffers :=
          updFun st.groupReplyBuffers gid (st.groupReplyBuffers gid ++ [content]) },
     [])
  else
    let (msgs, st') :=
      if st.groupReplyBuffers gid ≠ [] then
        -- pop the buffer, append the current content, summarize
        let allReplies := st.groupReplyBuffers gid ++ [content]
        let combined := joinNewline allReplies
        let finalMsg :=
          match summarize combined with
          | some sm => sm
          | none => SUMMARY_FAIL_MSG
        ([finalMsg], { st with groupReplyBuffers := updFun st.groupReplyBuffers gid [] })
      else
        ([content], st)
    -- self.last_group_reply_time[group_id] = current_time
    ({ st' with lastGroupReplyTime := updFun st'.lastGroupReplyTime gid now }, msgs)

/-- The group-message aggregation state of `QQBot`:
`group_message_buffers` (dict of lists, absent key read as `[]`) and the
presence of a live entry in `group_message_timers` (modelled as a boolean
per group).  Buffered message events are modelled by their content. -/
structure GroupMsgState where
  buffers : String → List String
  timerArmed : String → Bool

/-- The immediate-check threshold draw of `_handle_message_event`:
`random.randint(0, GROUP_MESSAGE_BUFFER_THRESHOLD_RANDOM)`. -/
def offerRollValid (r : Nat) : Prop := r ≤ THRESHOLD_RANDOM

/-- The timer-expiry threshold draw of `_start_group_message_timer`:
`random.randint(2, GROUP_MESSAGE_BUFFER_THRESHOLD_RANDOM)` — floor 2, not 0. -/
def expiryRollValid (r : Nat) : Prop := 2 ≤ r ∧ r ≤ THRESHOLD_RANDOM

/-- Embedding of the buffering branch of `QQBot._handle_message_event`
(non-@ group message): append the event to the buffer, cancel any previous
timer, draw a fresh threshold `THRESHOLD_FIXED + roll`, and either flush the
buffer synchronously (when its size meets the threshold; no new timer is
started) or arm a new debounce timer.  The second component is the flushed
buffer handed to `_process_buffered_group_messages`, if any. -/
def offerGroupMessage (st : GroupMsgState) (gid msg : String) (roll : Nat) :
    GroupMsgState × Option (List String) :=
  let buf := st.buffers gid ++ [msg]
  let st1 : GroupMsgState :=
    { buffers := updFun st.buffers gid buf
      timerArmed := updFun st.timerArmed gid false }  -- previous timer cancelled
  let threshold := THRESHOLD_FIXED + roll
  if buf.length ≥ threshold then
    ({ st1 with buffers := updFun st1.buffers gid [] }, some buf)
  else
    ({ st1 with timerArmed := updFun st1.timerArmed gid true }, none)

/-- Embedding of the timer body of `QQBot._start_group_message_timer` after
the sleep expires (plus its `finally`, which removes the timer handle):
redraw the threshold as `THRESHOLD_FIXED + roll`, flush only if the buffer
is non-empty and meets it, otherwise leave the buffer untouched. -/
def timerExpire (st : GroupMsgState) (gid : String) (roll : Nat) :
    GroupMsgState × Option (List String) :=
  let buf := st.buffers gid
  let threshold := THRESHOLD_FIXED + roll
  if buf ≠ [] ∧ buf.length ≥ threshold then
    ({ buffers := updFun st.buffers gid []
       timerArmed := updFun st.timerArmed gid false }, some buf)
  else
    ({ st with timerArmed := updFun st.timerArmed gid false }, none)

end QQBot

end AnZai

namespace AnZai

namespace Sched

/-- `Scheduler.heartbeat_timeout = 100` (seconds), from `scheduler.py`. -/
def HEARTBEAT_TIMEOUT : Int := 100

/-- The heartbeat-monitor state of `Scheduler`: `last_heartbeat_time`. -/
structure WatchState where
  lastHeartbeatTime : Int

/-- Events seen by the watchdog: a heartbeat delivered through
`update_heartbeat` at time `t`, or one iteration of the polling loop of
`_monitor_gocq_process` at time `t` (`startOk` is whether
`process_manager.start()` succeeds if a restart is attempted). -/
inductive WatchEvent where
  | heartbeat (t : Int)
  | poll (t : Int) (startOk : Bool)

/-- One watchdog step, from `scheduler.py`.  A heartbeat sets
`last_heartbeat_time = t` (`update_heartbeat`).  A poll compares
`now - last_heartbeat_time` against `heartbeat_timeout`; on a gap it runs
one restart cycle — `process_manager.stop()` then `process_manager.start()`,
counted by the second component — and on a successful start calls
`update_heartbeat()` (resetting the baseline to the current time; on a
failed start the baseline is left alone).  Otherwise nothing happens. -/
def watchStep (s : WatchState) : WatchEvent → WatchState × Nat
  | .heartbeat t => ({ lastHeartbeatTime := t }, 0)
  | .poll t ok =>
      if t - s.lastHeartbeatTime > HEARTBEAT_TIMEOUT then
        (if ok then { lastHeartbeatTime := t } else s, 1)
      else (s, 0)

/-- Run the watchdog over a list of events, counting restart cycles. -/
def watchRun (s : WatchState) : List WatchEvent → WatchState × Nat
  | [] => (s, 0)
  | e :: es =>
      ((watchRun (watchStep s e).1 es).1,
       (watchStep s e).2 + (watchRun (watchStep s e).1 es).2)

/-- Every poll in the trace happens while `now - last_heartbeat_time` is
within the timeout (evaluated against the state the watchdog has reached at
that point). -/
def onTimePolls (s : WatchState) : List WatchEvent → Bool
  | [] => true
  | e :: es =>
      (match e with
       | .poll t _ => decide (t - s.lastHeartbeatTime ≤ HEARTBEAT_TIMEOUT)
       | .heartbeat _ => true)
      && onTimePolls (watchStep s e).1 es

/-- The payload a deferred job fires with: the placeholder `lambda: None`
created by `add_bing_me_task`, the `send_message_callback` payload installed
by `update_pending_task_with_message`, or the `review_notebook_job` payload
installed by `update_pending_task_with_notebook`. -/
inductive JobAction where
  | noop : JobAction
  | sendMsg (userId msg : String) : JobAction
  | reviewNotebook (userId notebook : String) : JobAction
deriving DecidableEq

/-- An APScheduler job as the deferred job store sees it: its trigger time
(never changed by `job.modify`) and its action. -/
structure Job where
  runTime : Nat
  action : JobAction
deriving DecidableEq

/-- A job id `f"pending_{user_id}_{int(run_time.timestamp())}"`, modelled by
its two varying components (user id, integer timestamp). -/
abbrev JobId := String × Nat

/-- `apscheduler.get_job` over the job store. -/
def lookupJob (jid : JobId) : List (JobId × Job) → Option Job
  | [] => none
  | (k, j) :: rest => if k = jid then some j else lookupJob jid rest

/-- `apscheduler.add_job(..., replace_existing=True)` / `job.modify`:
replace the job stored under `jid` in place, or append it. -/
def upsertJob (jid : JobId) (j : Job) : List (JobId × Job) → List (JobId × Job)
  | [] => [(jid, j)]
  | (k, j') :: rest =>
      if k = jid then (jid, j) :: rest else (k, j') :: upsertJob jid j rest

/-- The deferred-job state of `Scheduler`: `_pending_user_tasks` (dict
user → awaiting job id, read through `.pop(user_id, None)`), the APScheduler
job store, and whether `send_message_callback` is registered. -/
structure SchedState where
  pendingUserTasks : String → Option JobId
  jobs : List (JobId × Job)
  callbackRegistered : Bool

/-- `"错误：请先使用 #BingMe 设定一个时间点。"` — returned by both configure
tools when no pending job exists for the user. -/
def ERR_NO_PENDING : String := "错误：请先使用 #BingMe 设定一个时间点。"

/-- `"错误：待处理的任务已过期或不存在。"` — returned when the awaiting job id
no longer resolves to a scheduled job. -/
def ERR_JOB_GONE : String := "错误：待处理的任务已过期或不存在。"

/-- `"错误：系统内部错误，无法发送消息（回调未注册）。"` — returned by
`update_pending_task_with_message` when no send callback is registered. -/
def ERR_NO_CALLBACK : String := "错误：系统内部错误，无法发送消息（回调未注册）。"

/-- `"定时消息已设定。"` — success message of
`update_pending_task_with_message`. -/
def MSG_TIMED_SET : String := "定时消息已设定。"

/-- `f"定时回顾 Notebook '{notebook_name}' 的任务已设定。"` — success message
of `update_pending_task_with_notebook`. -/
def noteSetMsg (nb : String) : String :=
  "定时回顾 Notebook '" ++ nb ++ "' 的任务已设定。"

/-- Embedding of `Scheduler.add_bing_me_task` (`#BingMe`): add a
do-nothing placeholder job under id `(user, runTime)` with
`replace_existing=True`, and point `_pending_user_tasks[user]` at it.  (Its
user-facing confirmation string carries no state and is elided.) -/
def addBingMeTask (st : SchedState) (user : String) (runTime : Nat) : SchedState :=
  let jid : JobId := (user, runTime)
  { st with
      jobs := upsertJob jid { runTime := runTime, action := .noop } st.jobs
      pendingUserTasks := updFun st.pendingUserTasks user (some jid) }

/-- The effect of `self._pending_user_tasks.pop(user_id, None)`. -/
def popPending (st : SchedState) (user : String) : SchedState :=
  { st with pendingUserTasks := updFun st.pendingUserTasks user none }

/-- Embedding of `Scheduler.update_pending_task_with_message` (`#BingMsg`):
pop the awaiting job id first, then look the job up, then check the
callback, then `job.modify` it into a send-message job. -/
def updatePendingTaskWithMessage (st : SchedState) (user message : String) :
    String × SchedState :=
  match st.pendingUserTasks user with
  | none => (ERR_NO_PENDING, st)
  | some jid =>
      let st1 := popPending st user
      match lookupJob jid st1.jobs with
      | none => (ERR_JOB_GONE, st1)
      | some job =>
          if st1.callbackRegistered then
            (MSG_TIMED_SET,
             { st1 with
                 jobs := upsertJob jid { job with action := .sendMsg user message }
                   st1.jobs })
          else (ERR_NO_CALLBACK, st1)

/-- Embedding of `Scheduler.update_pending_task_with_notebook` (`#BingNote`):
pop the awaiting job id first, then look the job up, then `job.modify` it
into a review-notebook job (no callback check in this variant). -/
def updatePendingTaskWithNotebook (st : SchedState) (user notebookName : String) :
    String × SchedState :=
  match st.pendingUserTasks user with
  | none => (ERR_NO_PENDING, st)
  | some jid =>
      let st1 := popPending st user
      match lookupJob jid st1.jobs with
      | none => (ERR_JOB_GONE, st1)
      | some job =>
          (noteSetMsg notebookName,
           { st1 with
               jobs := upsertJob jid
                 { job with action := .reviewNotebook user notebookName } st1.jobs })

end Sched

end AnZai

namespace AnZai

namespace AnLoop

/-- Python strings are modelled as lists of characters, so that the string
manipulation of `anloop_interpreter.py` is structurally provable. -/
abbrev Str := List Char

/-- Python `str.strip(chars)`: drop the characters satisfying `p` from both
ends. -/
def trimBy (p : Char → Bool) (s : Str) : Str :=
  ((s.dropWhile p).reverse.dropWhile p).reverse

/-- Python `str.strip()` (whitespace from both ends). -/
def trimStr (s : Str) : Str := trimBy Char.isWhitespace s

/-- Python `str.strip('; ')` as used on the content after the no-response
marker is removed. -/
def stripSemiSpace (s : Str) : Str := trimBy (fun c => c == ';' || c == ' ') s

/-- Python `str.split(sep)` for a one-character separator (as used with
`';'`): always returns at least one piece, empty pieces included. -/
def splitChar (sep : Char) : Str → List Str
  | [] => [[]]
  | c :: rest =>
    if c = sep then [] :: splitChar sep rest
    else
      match splitChar sep rest with
      | [] => [[c]]
      | h :: t => (c :: h) :: t

/-- Python `str.split(sep, 1)` for a one-character separator: the part
before the first occurrence, and (when the separator occurs) the raw
remainder after it. -/
def splitFirst (sep : Char) : Str → Str × Option Str
  | [] => ([], none)
  | c :: rest =>
    if c = sep then ([], some rest)
    else
      ((c :: (splitFirst sep rest).1), (splitFirst sep rest).2)

/-- A Python `dict` with insertion order, as `params` is one: assignment
replaces in place or appends. -/
def upsertParam (k v : Str) : List (Str × Str) → List (Str × Str)
  | [] => [(k, v)]
  | (q, w) :: rest =>
    if q = k then (k, v) :: rest else (q, w) :: upsertParam k v rest

/-- Python `k in params` / `params.get(k)`. -/
def lookupParam (k : Str) : List (Str × Str) → Option Str
  | [] => none
  | (q, w) :: rest => if q = k then some w else lookupParam k rest

/-- Python `del params[k]` (keys are unique under `upsertParam`). -/
def eraseParam (k : Str) : List (Str × Str) → List (Str × Str)
  | [] => []
  | (q, w) :: rest => if q = k then rest else (q, w) :: eraseParam k rest

/-- The `for i, pair in enumerate(param_pairs)` loop of
`AnLoopInterpreter._parse_tool_call`: a pair holding `'='` becomes a
`key.strip() → value.strip()` entry; the first pair without `'='` becomes
the implicit `"content"` parameter; later pairs without `'='` are dropped. -/
def parseParamPairs : List Str → Nat → List (Str × Str) → List (Str × Str)
  | [], _, acc => acc
  | p :: rest, i, acc =>
    if '=' ∈ p then
      parseParamPairs rest (i + 1)
        (upsertParam (trimStr (splitFirst '=' p).1)
          (trimStr ((splitFirst '=' p).2.getD [])) acc)
    else if i = 0 then
      parseParamPairs rest (i + 1) (upsertParam ("content".toList) (trimStr p) acc)
    else
      parseParamPairs rest (i + 1) acc

/-- Embedding of `AnLoopInterpreter._parse_tool_call`: split the trimmed
call at the first `'='`; the tool name is the head with its leading `'#'`
dropped; the remainder is split on `';'` and folded by `parseParamPairs`;
an empty `"content"` value is deleted; if no parameter survives while a
remainder existed, the raw remainder becomes the `"query"` parameter.
The function is total: no input makes it raise. -/
def parseToolCall (toolStr : Str) : Str × List (Str × Str) :=
  let t := trimStr toolStr
  let toolName := ((splitFirst '=' t).1).drop 1
  match (splitFirst '=' t).2 with
  | none => (toolName, [])
  | some paramStr =>
    let params := parseParamPairs (splitChar ';' paramStr) 0 []
    let params :=
      if lookupParam ("content".toList) params = some [] then
        eraseParam ("content".toList) params
      else params
    let params :=
      if params = [] then [("query".toList, paramStr)] else params
    (toolName, params)

/-- First occurrence of `pat` in a string: the part before it and the part
after it (the model of a leftmost regex / `str.replace(pat, new, 1)`
search). -/
def breakOnPat (pat : Str) : Str → Option (Str × Str)
  | [] => if pat.isPrefixOf ([] : Str) then some ([], []) else none
  | c :: rest =>
    if pat.isPrefixOf (c :: rest) then some ([], (c :: rest).drop pat.length)
    else
      match breakOnPat pat rest with
      | none => none
      | some (b, a) => some (c :: b, a)

/-- `"<Loops>"`. -/
def LOOPS_OPEN : Str := "<Loops>".toList

/-- `"</Loops>"`. -/
def LOOPS_CLOSE : Str := "</Loops>".toList

/-- The reserved no-response marker `"#NotResp"`. -/
def NOTRESP : Str := "#NotResp".toList

/-- The `re.search(r'<Loops>(.*?)</Loops>', s, re.DOTALL)` extraction of
`execute_anloop_sequence`: the (non-greedy) content between the first
`<Loops>` and the first `</Loops>` after it, if both occur. -/
def extractLoops (s : Str) : Option Str :=
  match breakOnPat LOOPS_OPEN s with
  | none => none
  | some (_, rest) =>
    match breakOnPat LOOPS_CLOSE rest with
    | none => none
    | some (content, _) => some content

/-- The segment filter of `execute_anloop_sequence`:
`[tc.strip() for tc in loop_content.split(';') if tc.strip() and
tc.strip().startswith('#')]`. -/
def isToolSeg (tc : Str) : Bool :=
  match tc with
  | [] => false
  | c :: _ => c == '#'

/-- The stripped tool-call segments of a loop content. -/
def segmentsOf (lc : Str) : List Str :=
  ((splitChar ';' lc).map trimStr).filter isToolSeg

/-- The marker handling and segmentation of `execute_anloop_sequence`: when
the trimmed block content starts with `#NotResp`, the flag is set and the
marker is stripped (`replace("#NotResp", "", 1)` on a string that starts
with the marker removes exactly that leading occurrence) and the rest is
`strip('; ')`-ed; then the content is split into tool segments.  When the
input holds no `<Loops>` block the result is no segments and a false flag. -/
def toolSegments (s : Str) : List Str × Bool :=
  match extractLoops s with
  | none => ([], false)
  | some c =>
    let lc := trimStr c
    if NOTRESP.isPrefixOf lc then
      (segmentsOf (stripSemiSpace (lc.drop NOTRESP.length)), true)
    else
      (segmentsOf lc, false)

/-- `ToolExecutionResult` of `tool_executor.py`: `dispatch_tool` wraps the
whole tool call in `try`/`except`, so it always returns such a value and
never raises. -/
structure ToolResult where
  success : Bool
  message : Str
deriving DecidableEq

/-- The `params["user_id"] = user_id` / `if group_id: params["group_id"] =
group_id` injection of `execute_anloop_sequence`. -/
def injectIds (uid : Str) (gid : Option Str) (p : List (Str × Str)) :
    List (Str × Str) :=
  match gid with
  | some g => upsertParam ("group_id".toList) g (upsertParam ("user_id".toList) uid p)
  | none => upsertParam ("user_id".toList) uid p

/-- The dispatch loop of `execute_anloop_sequence` over
`ToolExecutor.dispatch_tool` (modelled by the state-passing oracle `f`,
total because `dispatch_tool` catches every exception): parse each segment,
inject the ids, await the dispatch to completion, record its result, and
continue with the next segment whether or not the dispatch succeeded. -/
def runSegs {σ : Type} (f : σ → Str → List (Str × Str) → ToolResult × σ)
    (uid : Str) (gid : Option Str) : σ → List Str → List ToolResult × σ
  | st, [] => ([], st)
  | st, seg :: rest =>
    ((f st (parseToolCall seg).1 (injectIds uid gid (parseToolCall seg).2)).1 ::
       (runSegs f uid gid
         (f st (parseToolCall seg).1 (injectIds uid gid (parseToolCall seg).2)).2
         rest).1,
     (runSegs f uid gid
       (f st (parseToolCall seg).1 (injectIds uid gid (parseToolCall seg).2)).2
       rest).2)

/-- Embedding of `AnLoopInterpreter.execute_anloop_sequence`: extract the
block, handle the marker, segment, and dispatch serially; returns the
ordered result list, the final executor state, and the no-response flag. -/
def executeAnloopSequence {σ : Type}
    (f : σ → Str → List (Str × Str) → ToolResult × σ) (st : σ)
    (uid : Str) (gid : Option Str) (s : Str) : (List ToolResult × σ) × Bool :=
  (runSegs f uid gid st (toolSegments s).1, (toolSegments s).2)

/-- The names of the calls `execute_anloop_sequence` dispatches on input
`s` (first components of `_parse_tool_call` over the tool segments). -/
def callNames (s : Str) : List Str :=
  (toolSegments s).1.map fun seg => (parseToolCall seg).1

end AnLoop

end AnZai

theorem updFun_same {α : Type} (f : String → α) (k : String) (v : α) :
    AnZai.updFun f k v k = v := by simp [AnZai.updFun]

theorem updFun_other {α : Type} (f : String → α) (k : String) (v : α)
    (x : String) (h : x ≠ k) : AnZai.updFun f k v x = f x := by
  simp [AnZai.updFun, h]

/-- C3: a `send_message` attempt for a group session inside the cooldown
window transmits nothing, appends the content to the pending buffer, and
leaves `last_group_reply_time` untouched; an attempt outside the window
always results in a transmission attempt and sets
`last_group_reply_time[gid] = now`. -/
theorem C3_cooldown_buffers_and_no_timestamp_update
    (summarize : String → Option String) (st : AnZai.QQBot.ReplyState)
    (gid content : String) (now : Int) :
    (now - st.lastGroupReplyTime gid < AnZai.QQBot.GROUP_REPLY_COOLDOWN →
      AnZai.QQBot.sendGroupMessage summarize st gid content now =
        ({ st with
            groupReplyBuffers :=
              AnZai.updFun st.groupReplyBuffers gid
                (st.groupReplyBuffers gid ++ [content]) }, [])) ∧
    (¬ (now - st.lastGroupReplyTime gid < AnZai.QQBot.GROUP_REPLY_COOLDOWN) →
      (AnZai.QQBot.sendGroupMessage summarize st gid content now).2 ≠ [] ∧
      (AnZai.QQBot.sendGroupMessage summarize st gid content now).1.lastGroupReplyTime gid
        = now) := by
  constructor
  · intro h
    simp [AnZai.QQBot.sendGroupMessage, h]
  · intro h
    refine ⟨?_, ?_⟩
    · by_cases hb : st.groupReplyBuffers gid = []
      · simp [AnZai.QQBot.sendGroupMessage, h, hb, AnZai.updFun]
      · simp [AnZai.QQBot.sendGroupMessage, h, hb, AnZai.updFun]
    · by_cases hb : st.groupReplyBuffers gid = []
      · simp [AnZai.QQBot.sendGroupMessage, h, hb, AnZai.updFun]
      · simp [AnZai.QQBot.sendGroupMessage, h, hb, AnZai.updFun]

/-- Witness for C3 at a concrete state. -/
theorem C3_cooldown_buffers_and_no_timestamp_update_witness :
    ((10 : Int) - (⟨fun _ => 0, fun _ => ["x"]⟩ :
        AnZai.QQBot.ReplyState).lastGroupReplyTime "g"
       < AnZai.QQBot.GROUP_REPLY_COOLDOWN →
      AnZai.QQBot.sendGroupMessage (fun s => some s)
          ⟨fun _ => 0, fun _ => ["x"]⟩ "g" "hi" 10 =
        ({ (⟨fun _ => 0, fun _ => ["x"]⟩ : AnZai.QQBot.ReplyState) with
            groupReplyBuffers :=
                AnZai.updFun (fun _ => ["x"]) "g" (["x"] ++ ["hi"]) }, [])) ∧
    (¬ ((10 : Int) - (⟨fun _ => 0, fun _ => ["x"]⟩ :
          AnZai.QQBot.ReplyState).lastGroupReplyTime "g"
        < AnZai.QQBot.GROUP_REPLY_COOLDOWN) →
      (AnZai.QQBot.sendGroupMessage (fun s => some s)
          ⟨fun _ => 0, fun _ => ["x"]⟩ "g" "hi" 10).2 ≠ [] ∧
      (AnZai.QQBot.sendGroupMessage (fun s => some s)
          ⟨fun _ => 0, fun _ => ["x"]⟩ "g" "hi" 10).1.lastGroupReplyTime "g" = 10) :=
  C3_cooldown_buffers_and_no_timestamp_update (fun s => some s)
    ⟨fun _ => 0, fun _ => ["x"]⟩ "g" "hi" 10

/-- C1 counterexample: with a non-empty pending buffer `["a"]`, current
content `"b"`, an attempt outside the cooldown window, and a failing
summarizer, `send_message` transmits the fixed apology message — not the
newline-joined concatenation `"a\nb"` that the claim requires. -/
theorem C1_counterexample_fallback_is_apology_not_join :
    (AnZai.QQBot.sendGroupMessage (fun _ => none)
        ⟨fun _ => 0, fun _ => ["a"]⟩ "g" "b" 100).2 =
      [AnZai.QQBot.SUMMARY_FAIL_MSG] ∧
    AnZai.QQBot.SUMMARY_FAIL_MSG ≠ AnZai.QQBot.joinNewline ["a", "b"] := by
  constructor
  · rfl
  · decide

/-- C1 (amended): outside the cooldown window with a non-empty pending
buffer, `send_message` pops the pending replies, appends the current
content, and hands their newline-joined concatenation to the external
summarization capability; on success the summary is the single outbound
message, and when summarization fails the single outbound message is the
fixed apology string (not the concatenation, which is only the summarizer's
input).  In both cases the pending buffer is emptied and the cooldown
timestamp is set to `now`. -/
theorem C1_merge_summarize_and_apology_fallback
    (summarize : String → Option String) (st : AnZai.QQBot.ReplyState)
    (gid content : String) (now : Int)
    (h1 : ¬ (now - st.lastGroupReplyTime gid < AnZai.QQBot.GROUP_REPLY_COOLDOWN))
    (h2 : st.groupReplyBuffers gid ≠ []) :
    (∀ sm,
      summarize (AnZai.QQBot.joinNewline (st.groupReplyBuffers gid ++ [content]))
          = some sm →
      (AnZai.QQBot.sendGroupMessage summarize st gid content now).2 = [sm]) ∧
    (summarize (AnZai.QQBot.joinNewline (st.groupReplyBuffers gid ++ [content]))
        = none →
      (AnZai.QQBot.sendGroupMessage summarize st gid content now).2 =
        [AnZai.QQBot.SUMMARY_FAIL_MSG]) ∧
    (AnZai.QQBot.sendGroupMessage summarize st gid content now).1.groupReplyBuffers gid
      = [] ∧
    (AnZai.QQBot.sendGroupMessage summarize st gid content now).1.lastGroupReplyTime gid
      = now := by
  refine ⟨?_, ?_, ?_, ?_⟩
  · intro sm hsm
    simp [AnZai.QQBot.sendGroupMessage, h1, h2, hsm]
  · intro hnone
    simp [AnZai.QQBot.sendGroupMessage, h1, h2, hnone]
  · simp [AnZai.QQBot.sendGroupMessage, h1, h2, AnZai.updFun]
  · simp [AnZai.QQBot.sendGroupMessage, h1, h2, AnZai.updFun]

/-- Witness for the amended C1 at a concrete state, for a succeeding and a
failing summarizer. -/
theorem C1_merge_summarize_and_apology_fallback_witness :
    (AnZai.QQBot.sendGroupMessage (fun _ => some "S")
        ⟨fun _ => 0, fun _ => ["a"]⟩ "g" "b" 100).2 = ["S"] ∧
    (AnZai.QQBot.sendGroupMessage (fun _ => none)
        ⟨fun _ => 0, fun _ => ["a"]⟩ "g" "b" 100).2 =
      [AnZai.QQBot.SUMMARY_FAIL_MSG] ∧
    (AnZai.QQBot.sendGroupMessage (fun _ => none)
        ⟨fun _ => 0, fun _ => ["a"]⟩ "g" "b" 100).1.groupReplyBuffers "g" = [] :=
  ⟨(C1_merge_summarize_and_apology_fallback (fun _ => some "S")
      ⟨fun _ => 0, fun _ => ["a"]⟩ "g" "b" 100 (by decide) (by decide)).1 "S" rfl,
   (C1_merge_summarize_and_apology_fallback (fun _ => none)
      ⟨fun _ => 0, fun _ => ["a"]⟩ "g" "b" 100 (by decide) (by decide)).2.1 rfl,
   (C1_merge_summarize_and_apology_fallback (fun _ => none)
      ⟨fun _ => 0, fun _ => ["a"]⟩ "g" "b" 100 (by decide) (by decide)).2.2.1⟩

/-- C2: on an offer, the threshold is drawn fresh as
`THRESHOLD_FIXED + randint(0, THRESHOLD_RANDOM)`; when the grown buffer
meets it, the buffer is flushed synchronously and no debounce timer is
armed.  On timer expiry, the threshold is redrawn as
`THRESHOLD_FIXED + randint(2, THRESHOLD_RANDOM)` (floor 2, not 0), and when
the buffer is below this recomputed threshold the buffer is left unchanged
and only the timer handle is removed. -/
theorem C2_threshold_draws_and_flush_behavior :
    (∀ (st : AnZai.QQBot.GroupMsgState) (gid msg : String) (roll : Nat),
      AnZai.QQBot.offerRollValid roll →
      (st.buffers gid).length + 1 ≥ AnZai.QQBot.THRESHOLD_FIXED + roll →
      AnZai.QQBot.offerGroupMessage st gid msg roll =
        ({ buffers := AnZai.updFun (AnZai.updFun st.buffers gid
              (st.buffers gid ++ [msg])) gid []
           timerArmed := AnZai.updFun st.timerArmed gid false },
         some (st.buffers gid ++ [msg]))) ∧
    (∀ (st : AnZai.QQBot.GroupMsgState) (gid : String) (roll : Nat),
      AnZai.QQBot.expiryRollValid roll →
      (st.buffers gid).length < AnZai.QQBot.THRESHOLD_FIXED + roll →
      AnZai.QQBot.timerExpire st gid roll =
        ({ st with timerArmed := AnZai.updFun st.timerArmed gid false }, none)) := by
  constructor
  · intro st gid msg roll _ hlen
    have h : (st.buffers gid ++ [msg]).length ≥ AnZai.QQBot.THRESHOLD_FIXED + roll := by
      simp only [List.length_append, List.length_cons, List.length_nil]
      omega
    simp [AnZai.QQBot.offerGroupMessage, h]
    omega
  · intro st gid roll _ hlt
    have h : ¬ ((st.buffers gid ≠ []) ∧
        (st.buffers gid).length ≥ AnZai.QQBot.THRESHOLD_FIXED + roll) := by
      rintro ⟨-, hge⟩
      exact absurd hge (not_le.mpr hlt)
    simp only [AnZai.QQBot.timerExpire, if_neg h]

/-- Witness for C2: an offer that reaches the threshold flushes with no
timer armed, and an expiry below the recomputed threshold leaves the buffer
untouched. -/
theorem C2_threshold_draws_and_flush_behavior_witness :
    (AnZai.QQBot.offerGroupMessage
        ⟨fun _ => ["1", "2", "3", "4"], fun _ => true⟩ "g" "5" 0 =
      ({ buffers := AnZai.updFun (AnZai.updFun (fun _ => ["1", "2", "3", "4"]) "g"
            (["1", "2", "3", "4"] ++ ["5"])) "g" []
         timerArmed := AnZai.updFun (fun _ => true) "g" false },
       some (["1", "2", "3", "4"] ++ ["5"]))) ∧
    (AnZai.QQBot.timerExpire
        ⟨fun _ => ["1", "2", "3", "4"], fun _ => true⟩ "g" 2 =
      ({ (⟨fun _ => ["1", "2", "3", "4"], fun _ => true⟩ :
            AnZai.QQBot.GroupMsgState) with
          timerArmed := AnZai.updFun (fun _ => true) "g" false }, none)) :=
  ⟨C2_threshold_draws_and_flush_behavior.1
      ⟨fun _ => ["1", "2", "3", "4"], fun _ => true⟩ "g" "5" 0
      (by simp [AnZai.QQBot.offerRollValid, AnZai.QQBot.THRESHOLD_RANDOM])
      (by simp [AnZai.QQBot.THRESHOLD_FIXED]),
   C2_threshold_draws_and_flush_behavior.2
      ⟨fun _ => ["1", "2", "3", "4"], fun _ => true⟩ "g" 2
      (by simp [AnZai.QQBot.expiryRollValid, AnZai.QQBot.THRESHOLD_RANDOM])
      (by simp [AnZai.QQBot.THRESHOLD_FIXED])⟩

theorem watchRun_onTime_no_restart :
    ∀ (es : List AnZai.Sched.WatchEvent) (s : AnZai.Sched.WatchState),
      AnZai.Sched.onTimePolls s es = true → (AnZai.Sched.watchRun s es).2 = 0 := by
  intro es
  induction es with
  | nil => intro s _; rfl
  | cons e rest ih =>
    intro s h
    cases e with
    | heartbeat t =>
      simp only [AnZai.Sched.onTimePolls, Bool.true_and] at h
      have h' : AnZai.Sched.onTimePolls ⟨t⟩ rest = true := by
        simpa [AnZai.Sched.watchStep] using h
      simp [AnZai.Sched.watchRun, AnZai.Sched.watchStep, ih _ h']
    | poll t ok =>
      simp only [AnZai.Sched.onTimePolls, Bool.and_eq_true, decide_eq_true_eq] at h
      obtain ⟨h1, h2⟩ := h
      have hst : AnZai.Sched.watchStep s (.poll t ok) = (s, 0) := by
        simp [AnZai.Sched.watchStep, not_lt.mpr h1]
      rw [hst] at h2
      simp [AnZai.Sched.watchRun, hst, ih _ h2]

theorem watchRun_calm_polls :
    ∀ (ts : List Int) (s : AnZai.Sched.WatchState),
      (∀ t' ∈ ts, t' - s.lastHeartbeatTime ≤ AnZai.Sched.HEARTBEAT_TIMEOUT) →
      AnZai.Sched.watchRun s (ts.map fun u => .poll u true) = (s, 0) := by
  intro ts
  induction ts with
  | nil => intro s _; rfl
  | cons t rest ih =>
    intro s h
    have h1 : t - s.lastHeartbeatTime ≤ AnZai.Sched.HEARTBEAT_TIMEOUT :=
      h t (by simp)
    have hst : AnZai.Sched.watchStep s (.poll t true) = (s, 0) := by
      simp [AnZai.Sched.watchStep, not_lt.mpr h1]
    have hrest := ih s (fun t' ht' => h t' (by simp [ht']))
    simp [AnZai.Sched.watchRun, hst, hrest]

/-- C4: while every poll of the watchdog happens within `heartbeat_timeout`
of the last heartbeat, no restart cycle runs (stop/start are never called);
a poll that sees a gap performs exactly one restart cycle and, on a
successful start, resets the heartbeat baseline to the current time, so that
subsequent polls within the timeout of that moment trigger no second
restart. -/
theorem C4_watchdog_single_restart_cycle :
    (∀ (es : List AnZai.Sched.WatchEvent) (s : AnZai.Sched.WatchState),
      AnZai.Sched.onTimePolls s es = true →
      (AnZai.Sched.watchRun s es).2 = 0) ∧
    (∀ (s : AnZai.Sched.WatchState) (t : Int),
      AnZai.Sched.HEARTBEAT_TIMEOUT < t - s.lastHeartbeatTime →
      AnZai.Sched.watchStep s (.poll t true) = (⟨t⟩, 1)) ∧
    (∀ (s : AnZai.Sched.WatchState) (t : Int) (ts : List Int),
      AnZai.Sched.HEARTBEAT_TIMEOUT < t - s.lastHeartbeatTime →
      (∀ t' ∈ ts, t' - t ≤ AnZai.Sched.HEARTBEAT_TIMEOUT) →
      (AnZai.Sched.watchRun s
        (.poll t true :: ts.map fun u => .poll u true)).2 = 1) := by
  refine ⟨watchRun_onTime_no_restart, ?_, ?_⟩
  · intro s t hgap
    simp [AnZai.Sched.watchStep, hgap]
  · intro s t ts hgap hts
    have hst : AnZai.Sched.watchStep s (.poll t true) =
        (⟨t⟩, 1) := by simp [AnZai.Sched.watchStep, hgap]
    have hrest := watchRun_calm_polls ts ⟨t⟩ hts
    simp [AnZai.Sched.watchRun, hst, hrest]

/-- Witness for C4: 19 on-time heartbeats at 5-unit spacing keep the restart
count at zero; a 101-unit gap yields exactly one restart cycle and no second
restart on the following polls. -/
theorem C4_watchdog_single_restart_cycle_witness :
    (AnZai.Sched.watchRun ⟨0⟩
      [.heartbeat 5, .heartbeat 10, .heartbeat 15, .heartbeat 20,
       .heartbeat 25, .heartbeat 30, .heartbeat 35, .heartbeat 40,
       .heartbeat 45, .heartbeat 50, .poll 55 true, .heartbeat 55,
       .heartbeat 60, .heartbeat 65, .heartbeat 70, .heartbeat 75,
       .heartbeat 80, .heartbeat 85, .heartbeat 90, .heartbeat 95,
       .poll 100 true]).2 = 0 ∧
    AnZai.Sched.watchStep ⟨0⟩ (.poll 101 true) = (⟨101⟩, 1) ∧
    (AnZai.Sched.watchRun ⟨0⟩
      (.poll 101 true :: ([111, 121, 131].map fun u => .poll u true))).2 = 1 :=
  ⟨C4_watchdog_single_restart_cycle.1 _ ⟨0⟩ (by decide),
   C4_watchdog_single_restart_cycle.2.1 ⟨0⟩ 101 (by decide),
   C4_watchdog_single_restart_cycle.2.2 ⟨0⟩ 101 [111, 121, 131]
     (by decide) (by decide)⟩

theorem lookupJob_upsert_self (jid : AnZai.Sched.JobId) (j : AnZai.Sched.Job)
    (l : List (AnZai.Sched.JobId × AnZai.Sched.Job)) :
    AnZai.Sched.lookupJob jid (AnZai.Sched.upsertJob jid j l) = some j := by
  induction l with
  | nil => simp [AnZai.Sched.upsertJob, AnZai.Sched.lookupJob]
  | cons kv rest ih =>
    obtain ⟨k, j'⟩ := kv
    by_cases h : k = jid
    · simp [AnZai.Sched.upsertJob, h, AnZai.Sched.lookupJob]
    · simp [AnZai.Sched.upsertJob, h, AnZai.Sched.lookupJob, ih]

theorem lookupJob_upsert_ne (jid jid' : AnZai.Sched.JobId) (j : AnZai.Sched.Job)
    (l : List (AnZai.Sched.JobId × AnZai.Sched.Job)) (h : jid' ≠ jid) :
    AnZai.Sched.lookupJob jid' (AnZai.Sched.upsertJob jid j l) =
      AnZai.Sched.lookupJob jid' l := by
  induction l with
  | nil => simp [AnZai.Sched.upsertJob, AnZai.Sched.lookupJob, Ne.symm h]
  | cons kv rest ih =>
    obtain ⟨k, j'⟩ := kv
    by_cases hk : k = jid
    · subst hk
      simp [AnZai.Sched.upsertJob, AnZai.Sched.lookupJob, Ne.symm h]
    · simp [AnZai.Sched.upsertJob, hk, AnZai.Sched.lookupJob, ih]

/-- C5: `CreatePending(S, t1)` then `CreatePending(S, t2)` then
`Configure(S, payload)` configures only the job created at `t2`; the
superseded `t1` job remains scheduled with its original trigger time and
still holds the no-op action (so it fires at `t1` as a no-op), the awaiting
pointer is cleared, and any later `Configure` fails with the no-pending
error without touching any job. -/
theorem C5_configure_targets_latest_pending
    (st : AnZai.Sched.SchedState) (user payload : String) (t1 t2 : Nat)
    (hne : t1 ≠ t2) (hcb : st.callbackRegistered = true) :
    AnZai.Sched.lookupJob (user, t2)
        (AnZai.Sched.updatePendingTaskWithMessage
          (AnZai.Sched.addBingMeTask (AnZai.Sched.addBingMeTask st user t1) user t2)
          user payload).2.jobs = some ⟨t2, .sendMsg user payload⟩ ∧
    AnZai.Sched.lookupJob (user, t1)
        (AnZai.Sched.updatePendingTaskWithMessage
          (AnZai.Sched.addBingMeTask (AnZai.Sched.addBingMeTask st user t1) user t2)
          user payload).2.jobs = some ⟨t1, .noop⟩ ∧
    (AnZai.Sched.updatePendingTaskWithMessage
        (AnZai.Sched.addBingMeTask (AnZai.Sched.addBingMeTask st user t1) user t2)
        user payload).2.pendingUserTasks user = none ∧
    (∀ m, AnZai.Sched.updatePendingTaskWithMessage
        (AnZai.Sched.updatePendingTaskWithMessage
          (AnZai.Sched.addBingMeTask (AnZai.Sched.addBingMeTask st user t1) user t2)
          user payload).2 user m =
      (AnZai.Sched.ERR_NO_PENDING,
       (AnZai.Sched.updatePendingTaskWithMessage
          (AnZai.Sched.addBingMeTask (AnZai.Sched.addBingMeTask st user t1) user t2)
          user payload).2)) := by
  have hpair : ((user, t1) : AnZai.Sched.JobId) ≠ (user, t2) := by
    simp [hne]
  refine ⟨?_, ?_, ?_, ?_⟩ <;>
    simp [AnZai.Sched.updatePendingTaskWithMessage, AnZai.Sched.addBingMeTask,
      AnZai.Sched.popPending, AnZai.updFun, hcb, lookupJob_upsert_self,
      lookupJob_upsert_ne _ _ _ _ hpair]

/-- Witness for C5 at a concrete empty scheduler state. -/
theorem C5_configure_targets_latest_pending_witness :
    AnZai.Sched.lookupJob ("u", 2)
        (AnZai.Sched.updatePendingTaskWithMessage
          (AnZai.Sched.addBingMeTask
            (AnZai.Sched.addBingMeTask ⟨fun _ => none, [], true⟩ "u" 1) "u" 2)
          "u" "p").2.jobs = some ⟨2, .sendMsg "u" "p"⟩ ∧
    AnZai.Sched.lookupJob ("u", 1)
        (AnZai.Sched.updatePendingTaskWithMessage
          (AnZai.Sched.addBingMeTask
            (AnZai.Sched.addBingMeTask ⟨fun _ => none, [], true⟩ "u" 1) "u" 2)
          "u" "p").2.jobs = some ⟨1, .noop⟩ ∧
    (AnZai.Sched.updatePendingTaskWithMessage
        (AnZai.Sched.addBingMeTask
          (AnZai.Sched.addBingMeTask ⟨fun _ => none, [], true⟩ "u" 1) "u" 2)
        "u" "p").2.pendingUserTasks "u" = none ∧
    AnZai.Sched.updatePendingTaskWithMessage
        (AnZai.Sched.updatePendingTaskWithMessage
          (AnZai.Sched.addBingMeTask
            (AnZai.Sched.addBingMeTask ⟨fun _ => none, [], true⟩ "u" 1) "u" 2)
          "u" "p").2 "u" "m" =
      (AnZai.Sched.ERR_NO_PENDING,
       (AnZai.Sched.updatePendingTaskWithMessage
          (AnZai.Sched.addBingMeTask
            (AnZai.Sched.addBingMeTask ⟨fun _ => none, [], true⟩ "u" 1) "u" 2)
          "u" "p").2) := by
  have h := C5_configure_targets_latest_pending ⟨fun _ => none, [], true⟩
    "u" "p" 1 2 (by decide) rfl
  exact ⟨h.1, h.2.1, h.2.2.1, h.2.2.2 "m"⟩

/-- C9: calling either configure tool for a user with no awaiting pending
job returns the user-facing "no pending job" error string asking for
`#BingMe` first, and leaves the whole scheduler state (hence every
scheduled job) unchanged; both embedded functions are total, so no
exception is possible. -/
theorem C9_configure_without_pending_is_harmless_error
    (st : AnZai.Sched.SchedState) (user msg nb : String)
    (h : st.pendingUserTasks user = none) :
    AnZai.Sched.updatePendingTaskWithMessage st user msg =
      (AnZai.Sched.ERR_NO_PENDING, st) ∧
    AnZai.Sched.updatePendingTaskWithNotebook st user nb =
      (AnZai.Sched.ERR_NO_PENDING, st) := by
  constructor <;>
    simp [AnZai.Sched.updatePendingTaskWithMessage,
      AnZai.Sched.updatePendingTaskWithNotebook, h]

/-- Witness for C9 at a concrete state with no pending job. -/
theorem C9_configure_without_pending_is_harmless_error_witness :
    AnZai.Sched.updatePendingTaskWithMessage ⟨fun _ => none, [], true⟩ "u" "m" =
      (AnZai.Sched.ERR_NO_PENDING, ⟨fun _ => none, [], true⟩) ∧
    AnZai.Sched.updatePendingTaskWithNotebook ⟨fun _ => none, [], true⟩ "u" "n" =
      (AnZai.Sched.ERR_NO_PENDING, ⟨fun _ => none, [], true⟩) :=
  C9_configure_without_pending_is_harmless_error ⟨fun _ => none, [], true⟩
    "u" "m" "n" rfl

/-- C10: both configure tools pop the awaiting pointer before any other
validation: when they fail because the scheduled job is gone (or, for the
message variant, because the send callback is unregistered), the returned
state is the popped state, and repeating the configure on that state fails
with the "no pending job" error instead of retrying the job. -/
theorem C10_pointer_cleared_before_validation
    (st : AnZai.Sched.SchedState) (user msg nb : String)
    (jid : AnZai.Sched.JobId) (hp : st.pendingUserTasks user = some jid) :
    (AnZai.Sched.lookupJob jid st.jobs = none →
      AnZai.Sched.updatePendingTaskWithMessage st user msg =
        (AnZai.Sched.ERR_JOB_GONE, AnZai.Sched.popPending st user) ∧
      AnZai.Sched.updatePendingTaskWithNotebook st user nb =
        (AnZai.Sched.ERR_JOB_GONE, AnZai.Sched.popPending st user)) ∧
    (∀ job, AnZai.Sched.lookupJob jid st.jobs = some job →
      st.callbackRegistered = false →
      AnZai.Sched.updatePendingTaskWithMessage st user msg =
        (AnZai.Sched.ERR_NO_CALLBACK, AnZai.Sched.popPending st user)) ∧
    (AnZai.Sched.updatePendingTaskWithMessage
        (AnZai.Sched.popPending st user) user msg =
      (AnZai.Sched.ERR_NO_PENDING, AnZai.Sched.popPending st user) ∧
     AnZai.Sched.updatePendingTaskWithNotebook
        (AnZai.Sched.popPending st user) user nb =
      (AnZai.Sched.ERR_NO_PENDING, AnZai.Sched.popPending st user)) := by
  refine ⟨?_, ?_, ?_, ?_⟩
  · intro hgone
    constructor <;>
      simp [AnZai.Sched.updatePendingTaskWithMessage,
        AnZai.Sched.updatePendingTaskWithNotebook, hp, hgone,
        AnZai.Sched.popPending]
  · intro job hjob hcb
    simp [AnZai.Sched.updatePendingTaskWithMessage, hp, hjob, hcb,
      AnZai.Sched.popPending]
  · simp [AnZai.Sched.updatePendingTaskWithMessage, AnZai.Sched.popPending,
      AnZai.updFun]
  · simp [AnZai.Sched.updatePendingTaskWithNotebook, AnZai.Sched.popPending,
      AnZai.updFun]

/-- Witness for C10 at two concrete states: one whose awaiting job id points
at a vanished job, one with the job present but the callback unregistered. -/
theorem C10_pointer_cleared_before_validation_witness :
    (AnZai.Sched.updatePendingTaskWithMessage
        ⟨fun _ => some ("u", 5), [], false⟩ "u" "m" =
      (AnZai.Sched.ERR_JOB_GONE,
       AnZai.Sched.popPending ⟨fun _ => some ("u", 5), [], false⟩ "u") ∧
     AnZai.Sched.updatePendingTaskWithNotebook
        ⟨fun _ => some ("u", 5), [], false⟩ "u" "n" =
      (AnZai.Sched.ERR_JOB_GONE,
       AnZai.Sched.popPending ⟨fun _ => some ("u", 5), [], false⟩ "u")) ∧
    AnZai.Sched.updatePendingTaskWithMessage
        ⟨fun _ => some ("u", 5), [(("u", 5), ⟨5, .noop⟩)], false⟩ "u" "m" =
      (AnZai.Sched.ERR_NO_CALLBACK,
       AnZai.Sched.popPending
         ⟨fun _ => some ("u", 5), [(("u", 5), ⟨5, .noop⟩)], false⟩ "u") ∧
    AnZai.Sched.updatePendingTaskWithMessage
        (AnZai.Sched.popPending ⟨fun _ => some ("u", 5), [], false⟩ "u") "u" "m" =
      (AnZai.Sched.ERR_NO_PENDING,
       AnZai.Sched.popPending ⟨fun _ => some ("u", 5), [], false⟩ "u") :=
  ⟨(C10_pointer_cleared_before_validation
      ⟨fun _ => some ("u", 5), [], false⟩ "u" "m" "n" ("u", 5) rfl).1 rfl,
   (C10_pointer_cleared_before_validation
      ⟨fun _ => some ("u", 5), [(("u", 5), ⟨5, .noop⟩)], false⟩
      "u" "m" "n" ("u", 5) rfl).2.1 ⟨5, .noop⟩ rfl rfl,
   (C10_pointer_cleared_before_validation
      ⟨fun _ => some ("u", 5), [], false⟩ "u" "m" "n" ("u", 5) rfl).2.2.1⟩

theorem anloopSplitChar_ne_nil (sep : Char) :
    ∀ s : AnZai.AnLoop.Str, AnZai.AnLoop.splitChar sep s ≠ []
  | [] => by simp [AnZai.AnLoop.splitChar]
  | c :: rest => by
    by_cases hc : c = sep
    · simp [AnZai.AnLoop.splitChar, hc]
    · simp only [AnZai.AnLoop.splitChar, if_neg hc]
      rcases hrec : AnZai.AnLoop.splitChar sep rest with _ | ⟨hh, tt⟩
      · exact absurd hrec (anloopSplitChar_ne_nil sep rest)
      · simp

theorem anloopSplitChar_head_pre (sep : Char) :
    ∀ (s h0 : AnZai.AnLoop.Str) (t : List AnZai.AnLoop.Str),
      AnZai.AnLoop.splitChar sep s = h0 :: t → h0 <+: s
  | [], h0, t => by
    intro he
    simp only [AnZai.AnLoop.splitChar] at he
    cases he
    exact List.nil_prefix
  | c :: rest, h0, t => by
    intro he
    by_cases hc : c = sep
    · simp only [AnZai.AnLoop.splitChar, if_pos hc] at he
      cases he
      exact List.nil_prefix
    · simp only [AnZai.AnLoop.splitChar, if_neg hc] at he
      rcases hrec : AnZai.AnLoop.splitChar sep rest with _ | ⟨hh, tt⟩
      · exact absurd hrec (anloopSplitChar_ne_nil sep rest)
      · rw [hrec] at he
        injection he with h1 _
        rw [← h1]
        exact List.cons_prefix_cons.mpr
          ⟨rfl, anloopSplitChar_head_pre sep rest hh tt hrec⟩

theorem anloopSplitChar_mem_inf (sep : Char) :
    ∀ (s seg : AnZai.AnLoop.Str), seg ∈ AnZai.AnLoop.splitChar sep s → seg <:+: s
  | [], seg => by
    intro h
    simp only [AnZai.AnLoop.splitChar, List.mem_singleton] at h
    subst h
    exact List.nil_infix
  | c :: rest, seg => by
    intro h
    by_cases hc : c = sep
    · simp only [AnZai.AnLoop.splitChar, if_pos hc] at h
      rcases List.mem_cons.mp h with rfl | hmem
      · exact List.nil_infix
      · exact (anloopSplitChar_mem_inf sep rest seg hmem).trans
          (List.suffix_cons c rest).isInfix
    · simp only [AnZai.AnLoop.splitChar, if_neg hc] at h
      rcases hrec : AnZai.AnLoop.splitChar sep rest with _ | ⟨hh, tt⟩
      · exact absurd hrec (anloopSplitChar_ne_nil sep rest)
      · rw [hrec] at h
        rcases List.mem_cons.mp h with rfl | hmem
        · exact (List.cons_prefix_cons.mpr
            ⟨rfl, anloopSplitChar_head_pre sep rest hh tt hrec⟩).isInfix
        · exact (anloopSplitChar_mem_inf sep rest seg
            (by rw [hrec]; exact List.mem_cons_of_mem _ hmem)).trans
            (List.suffix_cons c rest).isInfix

theorem anloopSplitFirst_fst_pre (sep : Char) :
    ∀ s : AnZai.AnLoop.Str, (AnZai.AnLoop.splitFirst sep s).1 <+: s
  | [] => by simp [AnZai.AnLoop.splitFirst]
  | c :: rest => by
    by_cases h : c = sep
    · simp [AnZai.AnLoop.splitFirst, h]
    · simp only [AnZai.AnLoop.splitFirst, if_neg h]
      exact List.cons_prefix_cons.mpr ⟨rfl, anloopSplitFirst_fst_pre sep rest⟩

theorem anloopTrimBy_inf (p : Char → Bool) (s : AnZai.AnLoop.Str) :
    AnZai.AnLoop.trimBy p s <:+: s :=
  ((List.rdropWhile_prefix p (s.dropWhile p)).isInfix).trans
    ((List.dropWhile_suffix p).isInfix)

theorem anloopTrimBy_head (p : Char → Bool) (c : Char) (rest : AnZai.AnLoop.Str)
    (hc : p c = false) :
    AnZai.AnLoop.trimBy p (c :: rest) = [] ∨
      ∃ r, AnZai.AnLoop.trimBy p (c :: rest) = c :: r := by
  have hdw : (c :: rest).dropWhile p = c :: rest := by
    simp [List.dropWhile_cons, hc]
  have hpre : AnZai.AnLoop.trimBy p (c :: rest) <+: c :: rest := by
    rw [AnZai.AnLoop.trimBy, hdw]
    exact List.rdropWhile_prefix p (c :: rest)
  rcases htb : AnZai.AnLoop.trimBy p (c :: rest) with _ | ⟨a, as⟩
  · exact Or.inl rfl
  · rw [htb] at hpre
    have ha := (List.cons_prefix_cons.mp hpre).1
    exact Or.inr ⟨as, by rw [ha]⟩

theorem anloopParseToolCall_fst (s : AnZai.AnLoop.Str) :
    (AnZai.AnLoop.parseToolCall s).1 =
      ((AnZai.AnLoop.splitFirst '=' (AnZai.AnLoop.trimStr s)).1).drop 1 := by
  unfold AnZai.AnLoop.parseToolCall
  cases hm : (AnZai.AnLoop.splitFirst '=' (AnZai.AnLoop.trimStr s)).2 <;> simp [hm]

theorem anloopParseParamPairs_skip :
    ∀ (ps : List AnZai.AnLoop.Str) (i : Nat) (acc : List (AnZai.AnLoop.Str × AnZai.AnLoop.Str)),
      (∀ p ∈ ps, '=' ∉ p) → i ≠ 0 → AnZai.AnLoop.parseParamPairs ps i acc = acc
  | [], _, _ => by intro _ _; rfl
  | p :: rest, i, acc => by
    intro hno hi
    have h1 : '=' ∉ p := hno p (List.mem_cons_self p rest)
    simp only [AnZai.AnLoop.parseParamPairs, if_neg h1, if_neg hi]
    exact anloopParseParamPairs_skip rest (i + 1) acc
      (fun q hq => hno q (List.mem_cons_of_mem _ hq)) (Nat.succ_ne_zero i)

theorem anloopNotRespName_inf (lc : AnZai.AnLoop.Str) :
    ("NotResp".toList : AnZai.AnLoop.Str) ∈
      (AnZai.AnLoop.segmentsOf lc).map (fun seg => (AnZai.AnLoop.parseToolCall seg).1) →
    AnZai.AnLoop.NOTRESP <:+: lc := by
  intro hmem
  rw [List.mem_map] at hmem
  obtain ⟨seg, hsegmem, hname⟩ := hmem
  rw [AnZai.AnLoop.segmentsOf, List.mem_filter] at hsegmem
  obtain ⟨hmap, htool⟩ := hsegmem
  rw [List.mem_map] at hmap
  obtain ⟨seg0, hseg0, hseg⟩ := hmap
  rcases hsegform : AnZai.AnLoop.trimStr seg0 with _ | ⟨c0, srest⟩
  · rw [← hseg, hsegform] at htool
    simp [AnZai.AnLoop.isToolSeg] at htool
  · rw [← hseg, hsegform] at htool hname
    have hc0 : c0 = '#' := by
      simpa [AnZai.AnLoop.isToolSeg] using htool
    subst hc0
    rw [anloopParseToolCall_fst] at hname
    rcases anloopTrimBy_head Char.isWhitespace '#' srest (by decide) with hnil | ⟨r, hr⟩
    · rw [AnZai.AnLoop.trimStr, hnil] at hname
      exact absurd hname (by decide)
    · rw [AnZai.AnLoop.trimStr, hr] at hname
      have hsplit : AnZai.AnLoop.splitFirst '=' ('#' :: r) =
          ('#' :: (AnZai.AnLoop.splitFirst '=' r).1,
           (AnZai.AnLoop.splitFirst '=' r).2) := by
        simp [AnZai.AnLoop.splitFirst]
      rw [hsplit] at hname
      simp only [List.drop_succ_cons, List.drop_zero] at hname
      have hp0 : ('#' :: (AnZai.AnLoop.splitFirst '=' r).1) <+: ('#' :: r) :=
        List.cons_prefix_cons.mpr ⟨rfl, anloopSplitFirst_fst_pre '=' r⟩
      rw [hname] at hp0
      have hN : AnZai.AnLoop.NOTRESP <+: ('#' :: r) := by
        have hNc : AnZai.AnLoop.NOTRESP = '#' :: "NotResp".toList := by decide
        rw [hNc]
        exact hp0
      have h1 : AnZai.AnLoop.NOTRESP <:+: AnZai.AnLoop.trimStr ('#' :: srest) := by
        rw [AnZai.AnLoop.trimStr, hr]
        exact hN.isInfix
      have h2 : AnZai.AnLoop.NOTRESP <:+: AnZai.AnLoop.trimStr seg0 := by
        rw [hsegform]
        exact h1.trans (anloopTrimBy_inf Char.isWhitespace ('#' :: srest))
      exact (h2.trans (anloopTrimBy_inf Char.isWhitespace seg0)).trans
        (anloopSplitChar_mem_inf ';' lc seg0 hseg0)

theorem runSegs_length (σ : Type)
    (f : σ → AnZai.AnLoop.Str → List (AnZai.AnLoop.Str × AnZai.AnLoop.Str) →
      AnZai.AnLoop.ToolResult × σ)
    (uid : AnZai.AnLoop.Str) (gid : Option AnZai.AnLoop.Str) :
    ∀ (segs : List AnZai.AnLoop.Str) (st : σ),
      ((AnZai.AnLoop.runSegs f uid gid st segs).1).length = segs.length := by
  intro segs
  induction segs with
  | nil => intro st; rfl
  | cons seg rest ih =>
    intro st
    simp [AnZai.AnLoop.runSegs, ih]

theorem runSegs_get (σ : Type)
    (f : σ → AnZai.AnLoop.Str → List (AnZai.AnLoop.Str × AnZai.AnLoop.Str) →
      AnZai.AnLoop.ToolResult × σ)
    (uid : AnZai.AnLoop.Str) (gid : Option AnZai.AnLoop.Str) :
    ∀ (segs : List AnZai.AnLoop.Str) (st : σ) (i : Nat) (h : i < segs.length),
      ((AnZai.AnLoop.runSegs f uid gid st segs).1)[i]? =
        some (f ((AnZai.AnLoop.runSegs f uid gid st (segs.take i)).2)
          (AnZai.AnLoop.parseToolCall (segs.get ⟨i, h⟩)).1
          (AnZai.AnLoop.injectIds uid gid
            (AnZai.AnLoop.parseToolCall (segs.get ⟨i, h⟩)).2)).1 := by
  intro segs
  induction segs with
  | nil =>
    intro st i h
    exact absurd h (by simp)
  | cons seg rest ih =>
    intro st i h
    cases i with
    | zero => simp [AnZai.AnLoop.runSegs]
    | succ n =>
      have hn : n < rest.length := by simpa using h
      have hrec := ih
        (f st (AnZai.AnLoop.parseToolCall seg).1
          (AnZai.AnLoop.injectIds uid gid (AnZai.AnLoop.parseToolCall seg).2)).2 n hn
      simpa [AnZai.AnLoop.runSegs] using hrec

/-- C6 counterexample: the segment `#Search=hello` contains no `key=value`
pair in its remainder, yet `_parse_tool_call` yields the single implicit
parameter named `content` — not `query` — holding the stripped first piece. -/
theorem C6_counterexample_implicit_param_is_content :
    (∀ p ∈ AnZai.AnLoop.splitChar ';' ("hello".toList), '=' ∉ p) ∧
    (AnZai.AnLoop.parseToolCall ("#Search=hello".toList)).2 =
      [("content".toList, "hello".toList)] ∧
    ("content".toList : AnZai.AnLoop.Str) ≠ "query".toList := by
  refine ⟨by decide, by decide, by decide⟩

/-- C6 (amended): `_parse_tool_call` is total (never raises).  A call with
no `'='` at all yields no parameters.  A call whose remainder after the
first `'='` contains no `key=value` piece degenerates to a single implicit
parameter: named `content` and holding the stripped first `';'`-piece when
that piece is non-empty, and named `query` holding the raw remainder when
the stripped first piece is empty. -/
theorem C6_no_kv_pair_degenerate_param (toolStr : AnZai.AnLoop.Str) :
    ((AnZai.AnLoop.splitFirst '=' (AnZai.AnLoop.trimStr toolStr)).2 = none →
      (AnZai.AnLoop.parseToolCall toolStr).2 = []) ∧
    (∀ paramStr : AnZai.AnLoop.Str,
      (AnZai.AnLoop.splitFirst '=' (AnZai.AnLoop.trimStr toolStr)).2 = some paramStr →
      (∀ p ∈ AnZai.AnLoop.splitChar ';' paramStr, '=' ∉ p) →
      ((AnZai.AnLoop.trimStr ((AnZai.AnLoop.splitChar ';' paramStr).headI) ≠ [] →
         (AnZai.AnLoop.parseToolCall toolStr).2 =
           [("content".toList,
             AnZai.AnLoop.trimStr ((AnZai.AnLoop.splitChar ';' paramStr).headI))]) ∧
       (AnZai.AnLoop.trimStr ((AnZai.AnLoop.splitChar ';' paramStr).headI) = [] →
         (AnZai.AnLoop.parseToolCall toolStr).2 =
           [("query".toList, paramStr)]))) := by
  constructor
  · intro h
    simp [AnZai.AnLoop.parseToolCall, h]
  · intro paramStr hps hnokv
    rcases hsp : AnZai.AnLoop.splitChar ';' paramStr with _ | ⟨h0, t⟩
    · exact absurd hsp (anloopSplitChar_ne_nil ';' paramStr)
    · have hno0 : '=' ∉ h0 := hnokv h0 (by rw [hsp]; exact List.mem_cons_self h0 t)
      have hnot : ∀ p ∈ t, '=' ∉ p := fun p hp =>
        hnokv p (by rw [hsp]; exact List.mem_cons_of_mem _ hp)
      have hpp : AnZai.AnLoop.parseParamPairs (h0 :: t) 0 [] =
          [("content".toList, AnZai.AnLoop.trimStr h0)] := by
        simp only [AnZai.AnLoop.parseParamPairs, if_neg hno0, if_pos rfl]
        rw [anloopParseParamPairs_skip t 1 _ hnot (Nat.one_ne_zero)]
        rfl
      simp only [List.headI]
      constructor
      · intro hne
        simp [AnZai.AnLoop.parseToolCall, hps, hsp, hpp,
          AnZai.AnLoop.lookupParam, hne]
      · intro heq
        simp [AnZai.AnLoop.parseToolCall, hps, hsp, hpp, heq,
          AnZai.AnLoop.lookupParam, AnZai.AnLoop.eraseParam]

/-- Witness for the amended C6 on `#Memo` (no `'='`), `#Search=hello`
(non-empty implicit content) and `#Search=` (empty content, `query`
fallback). -/
theorem C6_no_kv_pair_degenerate_param_witness :
    (AnZai.AnLoop.parseToolCall ("#Memo".toList)).2 = [] ∧
    (AnZai.AnLoop.parseToolCall ("#Search=hello".toList)).2 =
      [("content".toList, "hello".toList)] ∧
    (AnZai.AnLoop.parseToolCall ("#Search=".toList)).2 =
      [("query".toList, [])] :=
  ⟨(C6_no_kv_pair_degenerate_param ("#Memo".toList)).1 (by decide),
   ((C6_no_kv_pair_degenerate_param ("#Search=hello".toList)).2
     ("hello".toList) (by decide) (by decide)).1 (by decide),
   ((C6_no_kv_pair_degenerate_param ("#Search=".toList)).2
     ([]) (by decide) (by decide)).2 (by decide)⟩

/-- C7: `execute_anloop_sequence` dispatches the parsed calls strictly in
order: the result list has exactly one entry per tool segment (a failing
dispatch never truncates it — `dispatch_tool` catches every exception and
the loop continues), and the `i`-th result is the dispatch of the `i`-th
call in the executor state produced by the first `i` dispatches run to
completion. -/
theorem C7_sequential_dispatch_continue_on_error (σ : Type)
    (f : σ → AnZai.AnLoop.Str → List (AnZai.AnLoop.Str × AnZai.AnLoop.Str) →
      AnZai.AnLoop.ToolResult × σ)
    (uid : AnZai.AnLoop.Str) (gid : Option AnZai.AnLoop.Str) :
    (∀ (s : AnZai.AnLoop.Str) (st : σ),
      ((AnZai.AnLoop.executeAnloopSequence f st uid gid s).1.1).length =
        (AnZai.AnLoop.toolSegments s).1.length) ∧
    (∀ (segs : List AnZai.AnLoop.Str) (st : σ) (i : Nat) (h : i < segs.length),
      ((AnZai.AnLoop.runSegs f uid gid st segs).1)[i]? =
        some (f ((AnZai.AnLoop.runSegs f uid gid st (segs.take i)).2)
          (AnZai.AnLoop.parseToolCall (segs.get ⟨i, h⟩)).1
          (AnZai.AnLoop.injectIds uid gid
            (AnZai.AnLoop.parseToolCall (segs.get ⟨i, h⟩)).2)).1) := by
  exact ⟨fun s st => runSegs_length σ f uid gid (AnZai.AnLoop.toolSegments s).1 st,
         runSegs_get σ f uid gid⟩

/-- Witness for C7 with an always-failing dispatcher over
`<Loops>#A=1;#B=2</Loops>`: both results are present and the second is the
dispatch of `#B=2` in the state left by dispatching `#A=1`. -/
theorem C7_sequential_dispatch_continue_on_error_witness :
    ((AnZai.AnLoop.executeAnloopSequence
        (fun (st : Nat) n _ => (⟨false, n⟩, st + 1)) 0 ("u".toList) none
        ("<Loops>#A=1;#B=2</Loops>".toList)).1.1).length =
      (AnZai.AnLoop.toolSegments ("<Loops>#A=1;#B=2</Loops>".toList)).1.length ∧
    ((AnZai.AnLoop.runSegs (fun (st : Nat) n _ => (⟨false, n⟩, st + 1))
        ("u".toList) none 0 ["#A=1".toList, "#B=2".toList]).1)[1]? =
      some ((fun (st : Nat) n _ => ((⟨false, n⟩ : AnZai.AnLoop.ToolResult), st + 1))
        ((AnZai.AnLoop.runSegs (fun (st : Nat) n _ => (⟨false, n⟩, st + 1))
          ("u".toList) none 0 (["#A=1".toList, "#B=2".toList].take 1)).2)
        (AnZai.AnLoop.parseToolCall
          (["#A=1".toList, "#B=2".toList].get ⟨1, by decide⟩)).1
        (AnZai.AnLoop.injectIds ("u".toList) none
          (AnZai.AnLoop.parseToolCall
            (["#A=1".toList, "#B=2".toList].get ⟨1, by decide⟩)).2)).1 :=
  ⟨(C7_sequential_dispatch_continue_on_error Nat
      (fun st n _ => (⟨false, n⟩, st + 1)) ("u".toList) none).1
      ("<Loops>#A=1;#B=2</Loops>".toList) 0,
   (C7_sequential_dispatch_continue_on_error Nat
      (fun st n _ => (⟨false, n⟩, st + 1)) ("u".toList) none).2
      ["#A=1".toList, "#B=2".toList] 0 1 (by decide)⟩

/-- C8 counterexample: on a block whose content holds the marker twice,
`execute_anloop_sequence` sets the background flag but only the first
occurrence is stripped — `NotResp` is among the parsed call names, contrary
to the claim that the marker is absent from all parsed call names. -/
theorem C8_counterexample_second_marker_survives :
    (AnZai.AnLoop.executeAnloopSequence
        (fun (st : Unit) _ _ => (⟨true, []⟩, st)) () ("u".toList) none
        ("<Loops>#NotResp;#NotResp;#Search=x</Loops>".toList)).2 = true ∧
    ("NotResp".toList : AnZai.AnLoop.Str) ∈
      AnZai.AnLoop.callNames ("<Loops>#NotResp;#NotResp;#Search=x</Loops>".toList) := by
  refine ⟨by decide, by decide⟩

/-- C8 (amended): when the extracted block content begins with the
`#NotResp` marker, `execute_anloop_sequence` returns `isBackground = true`
and strips the leading occurrence of the marker before segment parsing, so
the marker is absent from all parsed call names unless it occurs a second
time in the remainder of the block; a marker that is not syntactically
first does not set `isBackground`. -/
theorem C8_leading_marker_background_and_strip (σ : Type)
    (f : σ → AnZai.AnLoop.Str → List (AnZai.AnLoop.Str × AnZai.AnLoop.Str) →
      AnZai.AnLoop.ToolResult × σ)
    (st : σ) (uid : AnZai.AnLoop.Str) (gid : Option AnZai.AnLoop.Str)
    (s c : AnZai.AnLoop.Str) (hx : AnZai.AnLoop.extractLoops s = some c) :
    (AnZai.AnLoop.NOTRESP.isPrefixOf (AnZai.AnLoop.trimStr c) = true →
      (AnZai.AnLoop.executeAnloopSequence f st uid gid s).2 = true ∧
      (¬ AnZai.AnLoop.NOTRESP <:+:
          (AnZai.AnLoop.trimStr c).drop AnZai.AnLoop.NOTRESP.length →
        ("NotResp".toList : AnZai.AnLoop.Str) ∉ AnZai.AnLoop.callNames s)) ∧
    (AnZai.AnLoop.NOTRESP.isPrefixOf (AnZai.AnLoop.trimStr c) = false →
      (AnZai.AnLoop.executeAnloopSequence f st uid gid s).2 = false) := by
  constructor
  · intro hpre
    have hts : AnZai.AnLoop.toolSegments s =
        (AnZai.AnLoop.segmentsOf (AnZai.AnLoop.stripSemiSpace
          ((AnZai.AnLoop.trimStr c).drop AnZai.AnLoop.NOTRESP.length)), true) := by
      simp [AnZai.AnLoop.toolSegments, hx, hpre]
    constructor
    · simp [AnZai.AnLoop.executeAnloopSequence, hts]
    · intro hninf hmem
      rw [AnZai.AnLoop.callNames, hts] at hmem
      have hinf := anloopNotRespName_inf _ hmem
      have hstrip : AnZai.AnLoop.stripSemiSpace
          ((AnZai.AnLoop.trimStr c).drop AnZai.AnLoop.NOTRESP.length) <:+:
          (AnZai.AnLoop.trimStr c).drop AnZai.AnLoop.NOTRESP.length := by
        rw [AnZai.AnLoop.stripSemiSpace]
        exact anloopTrimBy_inf _ _
      exact hninf (hinf.trans hstrip)
  · intro hpre
    simp [AnZai.AnLoop.executeAnloopSequence, AnZai.AnLoop.toolSegments, hx, hpre]

/-- Witness for the amended C8: a single leading marker sets the flag and
leaves no `NotResp` call name; content not starting with the marker leaves
the flag false. -/
theorem C8_leading_marker_background_and_strip_witness :
    ((AnZai.AnLoop.executeAnloopSequence
        (fun (st : Unit) _ _ => (⟨true, []⟩, st)) () ("u".toList) none
        ("<Loops>#NotResp;#Search=q</Loops>".toList)).2 = true ∧
      ("NotResp".toList : AnZai.AnLoop.Str) ∉
        AnZai.AnLoop.callNames ("<Loops>#NotResp;#Search=q</Loops>".toList)) ∧
    (AnZai.AnLoop.executeAnloopSequence
        (fun (st : Unit) _ _ => (⟨true, []⟩, st)) () ("u".toList) none
        ("<Loops>#Search=q;#NotResp</Loops>".toList)).2 = false := by
  constructor
  · have h := (C8_leading_marker_background_and_strip Unit
      (fun st _ _ => (⟨true, []⟩, st)) () ("u".toList) none
      ("<Loops>#NotResp;#Search=q</Loops>".toList)
      ("#NotResp;#Search=q".toList) (by decide)).1 (by decide)
    exact ⟨h.1, h.2 (by decide)⟩
  · exact (C8_leading_marker_background_and_strip Unit
      (fun st _ _ => (⟨true, []⟩, st)) () ("u".toList) none
      ("<Loops>#Search=q;#NotResp</Loops>".toList)
      ("#Search=q;#NotResp".toList) (by decide)).2 (by decide)
